import Mathlib

/-!
Shallow embedding of the dynamics/integration core of the repository
`Simulation_of_controlling_different_types_of_boats`:

* `simulator/boat.py` — `BoatState`, `BoatParameters`, `Boat` (with
  `_kinematics` and `update_state`), `DifferentialThrustBoat`,
  `SteerableThrustBoat`;
* `ForceControl/cartpole.py` — `CartPoleParams`, `CartPole.dynamics`,
  `CartPole.dynamics_batch`, `CartPole.update`.

Machine floats are modelled by real numbers; Python's `%` on reals with a
positive modulus is `a - m * ⌊a / m⌋`; `raise` is modelled by `Except.error`,
and an in-place mutating method that can raise is modelled as a function
returning `Except String State` (the `..._run` variants give the caller's
view of the object after the call: unchanged on error).  numpy arrays whose
length is checked at run time are `List ℝ`; fixed 4-vectors of the cart-pole
are a structure.
-/

noncomputable section

namespace BoatSim

/-- Python `a % m` on reals (sign of the result follows `m`; for `m > 0` the
result is in `[0, m)`).  Used by `BoatState._wrap_angle` and
`CartPole.update`. -/
def pymod (a m : ℝ) : ℝ := a - m * ⌊a / m⌋

/-- `BoatState._wrap_angle` (boat.py line 31) and the inlined formula of
`cartpole.py` line 78: `(angle + np.pi) % (2 * np.pi) - np.pi`. -/
def wrap_angle (angle : ℝ) : ℝ := pymod (angle + Real.pi) (2 * Real.pi) - Real.pi

/-- State of the boat (boat.py `BoatState`): field order is part of the
contract. -/
@[ext]
structure BoatState where
  x : ℝ
  y : ℝ
  psi : ℝ
  Vx : ℝ
  Vy : ℝ
  omega : ℝ
  adapt_param1 : ℝ
  adapt_param2 : ℝ

/-- `BoatState.from_array` (boat.py lines 18-23): requires exactly 8
elements, otherwise `ValueError`. -/
def BoatState.from_array (arr : List ℝ) : Except String BoatState :=
  match arr with
  | [a0, a1, a2, a3, a4, a5, a6, a7] => .ok ⟨a0, a1, a2, a3, a4, a5, a6, a7⟩
  | _ => .error "Array must have exactly 8 elements."

/-- `BoatState.to_array` (boat.py lines 25-27). -/
def BoatState.to_array (s : BoatState) : List ℝ :=
  [s.x, s.y, s.psi, s.Vx, s.Vy, s.omega, s.adapt_param1, s.adapt_param2]

/-- `BoatState.update` (boat.py lines 33-45): Euler integration of all 8
components, wrapping `psi`; `ValueError` unless `derivatives` has exactly 8
elements (the check precedes every mutation, so an error leaves the state
untouched — here the error branch simply produces no new state). -/
def BoatState.update (s : BoatState) (derivatives : List ℝ) (dt : ℝ) :
    Except String BoatState :=
  match derivatives with
  | [d0, d1, d2, d3, d4, d5, d6, d7] =>
    .ok { x := s.x + d0 * dt
          y := s.y + d1 * dt
          psi := wrap_angle (s.psi + d2 * dt)
          Vx := s.Vx + d3 * dt
          Vy := s.Vy + d4 * dt
          omega := s.omega + d5 * dt
          adapt_param1 := s.adapt_param1 + d6 * dt
          adapt_param2 := s.adapt_param2 + d7 * dt }
  | _ => .error "Derivatives must have exactly 8 elements."

/-- The state of the Python object after calling `update`: the new state on
success, the old state when the `ValueError` is raised (the length check
happens before any assignment). -/
def BoatState.update_run (s : BoatState) (derivatives : List ℝ) (dt : ℝ) :
    BoatState :=
  match s.update derivatives dt with
  | .ok s2 => s2
  | .error _ => s

/-- `BoatParameters` (boat.py lines 48-58); the 3-element `damping` list is a
triple `(Dx, Dy, Dpsi)`. -/
structure BoatParameters where
  mass : ℝ
  inertia : ℝ
  damping : ℝ × ℝ × ℝ
  L : ℝ
  air_density : ℝ
  sail_Cx : ℝ
  sail_Cy : ℝ
  sail_area : ℝ

/-- Which concrete class the Python object belongs to: the base `Boat`
(whose `dynamics` raises `NotImplementedError`), `DifferentialThrustBoat`,
or `SteerableThrustBoat`. -/
inductive BoatKind where
  | base
  | differential
  | steerable
deriving DecidableEq

/-- A `Boat` object: state, parameters, optional wind field (the
`IWindField.get_wind` collaborator, global position ↦ global wind), and the
dispatch tag for the class hierarchy. -/
structure Boat where
  state : BoatState
  params : BoatParameters
  wind_field : Option ((ℝ × ℝ) → (ℝ × ℝ))
  kind : BoatKind

/-- `Boat._kinematics` (boat.py lines 85-123): global-frame position rates,
sail forces from apparent wind when a wind field is present, and linear-drag
accelerations.  Returns the 6-vector `[dx, dy, dpsi, dVx, dVy, domega]`. -/
def Boat.kinematics (b : Boat) (Fx Fy M : ℝ) : List ℝ :=
  let dx := b.state.Vx * Real.cos b.state.psi - b.state.Vy * Real.sin b.state.psi
  let dy := b.state.Vx * Real.sin b.state.psi + b.state.Vy * Real.cos b.state.psi
  let dpsi := b.state.omega
  let sail : ℝ × ℝ :=
    match b.wind_field with
    | none => (0, 0)
    | some wf =>
      let w := wf (b.state.x, b.state.y)
      let V_wx_body := Real.cos b.state.psi * w.1 + Real.sin b.state.psi * w.2
      let V_wy_body := -Real.sin b.state.psi * w.1 + Real.cos b.state.psi * w.2
      let V_aw_x := V_wx_body - b.state.Vx
      let V_aw_y := V_wy_body - b.state.Vy
      let Wind_Force := 0.5 * b.params.air_density * b.params.sail_area
      (Wind_Force * b.params.sail_Cx * V_aw_x, Wind_Force * b.params.sail_Cy * V_aw_y)
  let dVx := ((Fx + sail.1) / b.params.mass) - b.params.damping.1 * b.state.Vx
  let dVy := ((Fy + sail.2) / b.params.mass) - b.params.damping.2.1 * b.state.Vy
  let domega := (M / b.params.inertia) - b.params.damping.2.2 * b.state.omega
  [dx, dy, dpsi, dVx, dVy, domega]

/-- `Boat.dynamics` dispatched over the class hierarchy: the base class
raises `NotImplementedError` (boat.py line 83); `DifferentialThrustBoat`
(lines 131-137) sums thrusts and applies differential torque;
`SteerableThrustBoat` (lines 140-147) decomposes a steerable thrust. -/
def Boat.dynamics (b : Boat) (control : ℝ × ℝ) : Except String (List ℝ) :=
  match b.kind with
  | .base => .error "Dynamics method not implemented."
  | .differential =>
    let Fx := control.1 + control.2
    let Fy := (0 : ℝ)
    let M := b.params.L * (control.2 - control.1)
    .ok (b.kinematics Fx Fy M)
  | .steerable =>
    let thrust := control.1
    let theta := control.2
    let Fx := thrust * Real.cos theta
    let Fy := thrust * Real.sin theta
    let M := thrust * b.params.L * Real.sin theta
    .ok (b.kinematics Fx Fy M)

/-- `Boat.update_state` (boat.py lines 125-128): concatenates the dynamics
output with the adaptation derivatives and Euler-integrates the state. -/
def Boat.update_state (b : Boat) (control : ℝ × ℝ) (adaptation_derivatives : List ℝ)
    (dt : ℝ) : Except String BoatState :=
  match b.dynamics control with
  | .error e => .error e
  | .ok dyn => b.state.update (dyn ++ adaptation_derivatives) dt

/-- The boat's state after calling `update_state`: unchanged when an
exception propagates (both checks precede every mutation). -/
def Boat.update_state_run (b : Boat) (control : ℝ × ℝ)
    (adaptation_derivatives : List ℝ) (dt : ℝ) : BoatState :=
  match b.update_state control adaptation_derivatives dt with
  | .ok s2 => s2
  | .error _ => b.state

end BoatSim

namespace CartPoleSim

open BoatSim (pymod wrap_angle)

/-- `CartPoleParams` (cartpole.py lines 4-12), with the documented
defaults as a reference value below. -/
structure CartPoleParams where
  m_cart : ℝ
  m_pole : ℝ
  l : ℝ
  g : ℝ
  damping : ℝ
  rotary_damping : ℝ
  max_force : ℝ

/-- The default parameter record (cartpole.py lines 5-12). -/
def CartPoleParams.default : CartPoleParams :=
  { m_cart := 1, m_pole := 0.1, l := 0.5, g := 9.81,
    damping := 10, rotary_damping := 0.1, max_force := 300 }

/-- A 4-vector `[x, x_dot, theta, theta_dot]` — both the cart-pole state and
the derivative vector returned by `dynamics` have this shape. -/
@[ext]
structure CartVec where
  x : ℝ
  x_dot : ℝ
  theta : ℝ
  theta_dot : ℝ

/-- `CartPole.dynamics` (cartpole.py lines 19-42): scalar cart-pole
Lagrangian dynamics, returning `[x_dot, x_acc, theta_dot, theta_acc]`. -/
def dynamics (params : CartPoleParams) (state : CartVec) (force : ℝ) : CartVec :=
  let x_dot := state.x_dot
  let theta := state.theta
  let theta_dot := state.theta_dot
  let p := params
  let sin_theta := Real.sin theta
  let cos_theta := Real.cos theta
  let total_mass := p.m_cart + p.m_pole
  let pole_mass_length := p.m_pole * p.l
  let temp := (force + pole_mass_length * theta_dot ^ 2 * sin_theta
      - p.damping * x_dot) / total_mass
  let theta_acc := (p.g * sin_theta - cos_theta * temp - p.rotary_damping * theta_dot) /
      (p.l * (4 / 3 - p.m_pole * cos_theta ^ 2 / total_mass))
  let x_acc := temp - pole_mass_length * theta_acc * cos_theta / total_mass
  ⟨x_dot, x_acc, theta_dot, theta_acc⟩

/-- `CartPole.dynamics_batch` (cartpole.py lines 44-72): the identical
closed-form equations applied element-wise (each numpy vectorized operation
is an element-wise map over the `N` rows). -/
def dynamics_batch {N : ℕ} (params : CartPoleParams) (states : Fin N → CartVec)
    (forces : Fin N → ℝ) : Fin N → CartVec :=
  let x_dot := fun i => (states i).x_dot
  let theta := fun i => (states i).theta
  let theta_dot := fun i => (states i).theta_dot
  let p := params
  let sin_theta := fun i => Real.sin (theta i)
  let cos_theta := fun i => Real.cos (theta i)
  let total_mass := p.m_cart + p.m_pole
  let pole_mass_length := p.m_pole * p.l
  let temp := fun i => (forces i + pole_mass_length * theta_dot i ^ 2 * sin_theta i
      - p.damping * x_dot i) / total_mass
  let theta_acc := fun i =>
      (p.g * sin_theta i - cos_theta i * temp i - p.rotary_damping * theta_dot i) /
      (p.l * (4 / 3 - p.m_pole * cos_theta i ^ 2 / total_mass))
  let x_acc := fun i => temp i - pole_mass_length * theta_acc i * cos_theta i / total_mass
  fun i => ⟨x_dot i, x_acc i, theta_dot i, theta_acc i⟩

/-- `np.clip(a, a_min, a_max)`, i.e. `np.minimum(a_max, np.maximum(a, a_min))`. -/
def npclip (a a_min a_max : ℝ) : ℝ := min a_max (max a a_min)

/-- `CartPole.update` (cartpole.py lines 74-78): clip the force to
`[-max_force, max_force]`, Euler-integrate, and wrap the pole angle with
`(theta + np.pi) % (2 * np.pi) - np.pi`. -/
def update (params : CartPoleParams) (state : CartVec) (force dt : ℝ) : CartVec :=
  let force2 := npclip force (-params.max_force) params.max_force
  let derivs := dynamics params state force2
  let s2 : CartVec := ⟨state.x + derivs.x * dt, state.x_dot + derivs.x_dot * dt,
      state.theta + derivs.theta * dt, state.theta_dot + derivs.theta_dot * dt⟩
  { s2 with theta := wrap_angle s2.theta }

end CartPoleSim

namespace BoatSim

lemma wrap_angle_mem (angle : ℝ) :
    -Real.pi ≤ wrap_angle angle ∧ wrap_angle angle < Real.pi := by
  have hpi := Real.pi_pos
  have h2 : (0 : ℝ) < 2 * Real.pi := by linarith
  have hfr : wrap_angle angle + Real.pi
      = 2 * Real.pi * Int.fract ((angle + Real.pi) / (2 * Real.pi)) := by
    unfold wrap_angle pymod Int.fract
    field_simp
  have h0 : 0 ≤ 2 * Real.pi * Int.fract ((angle + Real.pi) / (2 * Real.pi)) :=
    mul_nonneg h2.le (Int.fract_nonneg _)
  have h1 : 2 * Real.pi * Int.fract ((angle + Real.pi) / (2 * Real.pi))
      < 2 * Real.pi * 1 :=
    (mul_lt_mul_left h2).2 (Int.fract_lt_one _)
  constructor <;> nlinarith

lemma wrap_angle_zero : wrap_angle 0 = 0 := by
  have hne := Real.pi_ne_zero
  have h : (0 + Real.pi) / (2 * Real.pi) = 1 / 2 := by
    field_simp
    ring
  have hfl : ⌊(1 : ℝ) / 2⌋ = 0 := by
    rw [Int.floor_eq_zero_iff]
    constructor <;> norm_num
  unfold wrap_angle pymod
  rw [h, hfl]
  ring

lemma wrap_angle_pi : wrap_angle Real.pi = -Real.pi := by
  have hne := Real.pi_ne_zero
  have h : (Real.pi + Real.pi) / (2 * Real.pi) = 1 := by
    field_simp
    ring
  unfold wrap_angle pymod
  rw [h]
  norm_num
  ring

lemma from_array_error_iff (arr : List ℝ) :
    (∃ e, BoatState.from_array arr = .error e) ↔ arr.length ≠ 8 := by
  rcases arr with _ | ⟨a0, _ | ⟨a1, _ | ⟨a2, _ | ⟨a3, _ | ⟨a4, _ | ⟨a5, _ | ⟨a6, _ |
    ⟨a7, _ | ⟨a8, t⟩⟩⟩⟩⟩⟩⟩⟩⟩ <;> simp [BoatState.from_array]

lemma update_error_iff (s : BoatState) (d : List ℝ) (dt : ℝ) :
    (∃ e, s.update d dt = .error e) ↔ d.length ≠ 8 := by
  rcases d with _ | ⟨a0, _ | ⟨a1, _ | ⟨a2, _ | ⟨a3, _ | ⟨a4, _ | ⟨a5, _ | ⟨a6, _ |
    ⟨a7, _ | ⟨a8, t⟩⟩⟩⟩⟩⟩⟩⟩⟩ <;> simp [BoatState.update]

end BoatSim

open BoatSim CartPoleSim

/-- C3 counterexample: the wrapping operation is not valued in `(-π, π]`:
at the input `π` it returns `-π`, which is not strictly greater than `-π`. -/
theorem c3_counterexample :
    wrap_angle Real.pi = -Real.pi ∧ ¬ (-Real.pi < wrap_angle Real.pi) :=
  ⟨wrap_angle_pi, by rw [wrap_angle_pi]; exact lt_irrefl _⟩

/-- C3 (amended): for every real angle, the wrapping operation
`((θ+π) mod 2π) − π` used by `BoatState.update` and `CartPole.update`
returns a value in the half-open interval `[-π, π)`: at least `-π` and
strictly less than `π`. -/
theorem c3_wrap_range (θ : ℝ) :
    -Real.pi ≤ wrap_angle θ ∧ wrap_angle θ < Real.pi :=
  wrap_angle_mem θ

/-- C4: every row `i` of `dynamics_batch` equals the scalar `dynamics`
applied to `states i` and `forces i`; in particular no other row's entries
influence row `i`. -/
theorem c4_batch_scalar_equiv {N : ℕ} (params : CartPoleParams)
    (states : Fin N → CartVec) (forces : Fin N → ℝ) (i : Fin N) :
    dynamics_batch params states forces i
      = CartPoleSim.dynamics params (states i) (forces i) := rfl

/-- C6: `CartPole.update` with force `10 · max_force` produces exactly the
same state as with force `max_force`, for every state, parameter record and
`dt` (the force is clipped, and `update` is total — no error is raised). -/
theorem c6_saturation (p : CartPoleParams) (s : CartVec) (dt : ℝ) :
    update p s (10 * p.max_force) dt = update p s p.max_force dt := by
  have hclip : npclip (10 * p.max_force) (-p.max_force) p.max_force
      = npclip p.max_force (-p.max_force) p.max_force := by
    unfold npclip
    rcases le_total 0 p.max_force with h | h
    · rw [max_eq_left (by linarith : -p.max_force ≤ 10 * p.max_force),
        max_eq_left (by linarith : -p.max_force ≤ p.max_force),
        min_eq_left (by linarith : p.max_force ≤ 10 * p.max_force), min_self]
    · rw [max_eq_right (by linarith : 10 * p.max_force ≤ -p.max_force),
        max_eq_right (by linarith : p.max_force ≤ -p.max_force)]
  unfold update
  rw [hclip]

/-- C7: `to_array` lists the 8 fields in the order x, y, ψ, Vx, Vy, ω,
adapt1, adapt2, and `from_array` inverts it: `from_array (to_array s)`
succeeds with exactly `s`. -/
theorem c7_array_roundtrip (s : BoatState) :
    BoatState.from_array s.to_array = Except.ok s
    ∧ s.to_array = [s.x, s.y, s.psi, s.Vx, s.Vy, s.omega,
        s.adapt_param1, s.adapt_param2] :=
  ⟨rfl, rfl⟩

/-- C8: `CartPole.update` wraps the pole angle unconditionally: after every
call the angle lies in `[-π, π)` (one 2π period), and with `dt = 0` the
update is not the identity on any state whose angle starts outside that
range. -/
theorem c8_unconditional_wrap (p : CartPoleParams) (s : CartVec) (force dt : ℝ) :
    (-Real.pi ≤ (update p s force dt).theta ∧ (update p s force dt).theta < Real.pi)
    ∧ (s.theta ∉ Set.Ico (-Real.pi) Real.pi → update p s force 0 ≠ s) := by
  constructor
  · exact wrap_angle_mem _
  · intro hmem heq
    have h1 : wrap_angle (s.theta +
        (CartPoleSim.dynamics p s (npclip force (-p.max_force) p.max_force)).theta * 0)
        = s.theta := congrArg CartVec.theta heq
    rw [mul_zero, add_zero] at h1
    have h2 := wrap_angle_mem s.theta
    rw [h1] at h2
    exact hmem (Set.mem_Ico.mpr h2)

/-- C8 witness: at the concrete state with pole angle `2π`, `update` with
`dt = 0` changes the state. -/
theorem c8_witness :
    update CartPoleParams.default ⟨0, 0, 2 * Real.pi, 0⟩ 0 0
      ≠ (⟨0, 0, 2 * Real.pi, 0⟩ : CartVec) :=
  (c8_unconditional_wrap CartPoleParams.default ⟨0, 0, 2 * Real.pi, 0⟩ 0 0).2
    (by
      simp only [Set.mem_Ico, not_and, not_lt]
      intro _
      have := Real.pi_pos
      linarith)

/-- C10: on the base `Boat` class, `dynamics` (and hence `update_state`)
raises `NotImplementedError` for every control, while the differential and
steerable variants always return a derivative vector. -/
theorem c10_base_dynamics_error (st : BoatState) (p : BoatParameters)
    (wf : Option ((ℝ × ℝ) → (ℝ × ℝ))) (c : ℝ × ℝ) (ad : List ℝ) (dt : ℝ) :
    Boat.dynamics ⟨st, p, wf, .base⟩ c = .error "Dynamics method not implemented."
    ∧ Boat.update_state ⟨st, p, wf, .base⟩ c ad dt
        = .error "Dynamics method not implemented."
    ∧ (∃ d, Boat.dynamics ⟨st, p, wf, .differential⟩ c = .ok d)
    ∧ (∃ d, Boat.dynamics ⟨st, p, wf, .steerable⟩ c = .ok d) :=
  ⟨rfl, rfl, ⟨_, rfl⟩, ⟨_, rfl⟩⟩

/-- C5: `from_array` and `update` raise the validation error exactly when
the argument does not have 8 elements, and a failing `update` leaves the
state unchanged. -/
theorem c5_length_validation (arr : List ℝ) (s : BoatState) (d : List ℝ) (dt : ℝ) :
    ((∃ e, BoatState.from_array arr = .error e) ↔ arr.length ≠ 8)
    ∧ ((∃ e, s.update d dt = .error e) ↔ d.length ≠ 8)
    ∧ (d.length ≠ 8 → s.update_run d dt = s) := by
  refine ⟨from_array_error_iff arr, update_error_iff s d dt, fun h => ?_⟩
  obtain ⟨e, he⟩ := (update_error_iff s d dt).mpr h
  unfold BoatState.update_run
  rw [he]

/-- C5 witness: concrete failing lengths 0, 7 and 9. -/
theorem c5_witness :
    (∃ e, BoatState.from_array ([] : List ℝ) = .error e)
    ∧ (∃ e, BoatState.update ⟨0, 0, 0, 0, 0, 0, 0, 0⟩ [1, 1, 1, 1, 1, 1, 1] 1 = .error e)
    ∧ BoatState.update_run ⟨0, 0, 0, 0, 0, 0, 0, 0⟩ [1, 1, 1, 1, 1, 1, 1, 1, 1] 1
        = ⟨0, 0, 0, 0, 0, 0, 0, 0⟩ :=
  ⟨(c5_length_validation [] ⟨0, 0, 0, 0, 0, 0, 0, 0⟩ [] 1).1.mpr (by decide),
    (c5_length_validation [] ⟨0, 0, 0, 0, 0, 0, 0, 0⟩ [1, 1, 1, 1, 1, 1, 1] 1).2.1.mpr
      (by decide),
    (c5_length_validation [] ⟨0, 0, 0, 0, 0, 0, 0, 0⟩ [1, 1, 1, 1, 1, 1, 1, 1, 1] 1).2.2
      (by decide)⟩

/-- C9: on a non-base boat, `update_state` raises the validation error
whenever the adaptation-derivative list does not have exactly 2 elements
(6-element dynamics output plus the list fails the length-8 check), and the
boat's state is unchanged. -/
theorem c9_adaptation_length (b : Boat) (c : ℝ × ℝ) (ad : List ℝ) (dt : ℝ)
    (hk : b.kind ≠ .base) (h : ad.length ≠ 2) :
    (∃ e, b.update_state c ad dt = .error e)
    ∧ b.update_state_run c ad dt = b.state := by
  have hdyn : ∃ dyn, b.dynamics c = Except.ok dyn ∧ dyn.length = 6 := by
    cases hb : b.kind with
    | base => exact absurd hb hk
    | differential =>
      refine ⟨b.kinematics (c.1 + c.2) 0 (b.params.L * (c.2 - c.1)), ?_, rfl⟩
      simp [Boat.dynamics, hb]
    | steerable =>
      refine ⟨b.kinematics (c.1 * Real.cos c.2) (c.1 * Real.sin c.2)
        (c.1 * b.params.L * Real.sin c.2), ?_, rfl⟩
      simp [Boat.dynamics, hb]
  obtain ⟨dyn, hdy, hlen⟩ := hdyn
  have hglen : (dyn ++ ad).length ≠ 8 := by
    rw [List.length_append, hlen]
    omega
  obtain ⟨e, he⟩ := (update_error_iff b.state (dyn ++ ad) dt).mpr hglen
  refine ⟨⟨e, ?_⟩, ?_⟩
  · simp [Boat.update_state, hdy, he]
  · simp [Boat.update_state_run, Boat.update_state, hdy, he]

/-- C9 witness: a differential-thrust boat with an empty adaptation list. -/
theorem c9_witness :
    (∃ e, Boat.update_state
      ⟨⟨0, 0, 0, 0, 0, 0, 0, 0⟩, ⟨1, 1, (0, 0, 0), 1, 1, 1, 1, 1⟩, none, .differential⟩
      (0, 0) [] 1 = .error e)
    ∧ Boat.update_state_run
      ⟨⟨0, 0, 0, 0, 0, 0, 0, 0⟩, ⟨1, 1, (0, 0, 0), 1, 1, 1, 1, 1⟩, none, .differential⟩
      (0, 0) [] 1 = ⟨0, 0, 0, 0, 0, 0, 0, 0⟩ :=
  c9_adaptation_length _ _ _ _ (by decide) (by decide)

lemma demo_boat_step :
    Boat.update_state
      ⟨⟨0, 0, 0, 0, 0, 0, 0, 0⟩, ⟨10, 5, (0, 0, 0), 1, 1, 1, 1, 1⟩, none, .differential⟩
      (1, 1) [0, 0] 1 = Except.ok ⟨0, 0, 0, 1 / 5, 0, 0, 0, 0⟩ := by
  simp [Boat.update_state, Boat.dynamics, Boat.kinematics, BoatState.update,
    wrap_angle_zero]
  norm_num

/-- C1 counterexample: the spec's end-to-end step (zero state, mass 10,
inertia 5, zero damping, L = 1, no wind, control (1,1), dt = 1) does not
yield Vx = 0.1: the two thrusts sum to Fx = 2 and Vx becomes 0.2. -/
theorem c1_counterexample :
    Boat.update_state
      ⟨⟨0, 0, 0, 0, 0, 0, 0, 0⟩, ⟨10, 5, (0, 0, 0), 1, 1, 1, 1, 1⟩, none, .differential⟩
      (1, 1) [0, 0] 1 ≠ Except.ok ⟨0, 0, 0, 0.1, 0, 0, 0, 0⟩ := by
  rw [demo_boat_step]
  intro h
  rw [Except.ok.injEq] at h
  have h2 := congrArg BoatState.Vx h
  norm_num at h2

/-- C1 (amended): the same end-to-end step yields Vx = 0.2 and leaves the
other seven components at 0. -/
theorem c1_end_to_end_step :
    Boat.update_state
      ⟨⟨0, 0, 0, 0, 0, 0, 0, 0⟩, ⟨10, 5, (0, 0, 0), 1, 1, 1, 1, 1⟩, none, .differential⟩
      (1, 1) [0, 0] 1 = Except.ok ⟨0, 0, 0, 0.2, 0, 0, 0, 0⟩ := by
  rw [demo_boat_step]
  norm_num

lemma zero_wind_kinematics (st : BoatState) (p : BoatParameters) (k : BoatKind)
    (hx : 0.5 * p.air_density * p.sail_area * p.sail_Cx = 0)
    (hy : 0.5 * p.air_density * p.sail_area * p.sail_Cy = 0)
    (Fx Fy M : ℝ) :
    Boat.kinematics ⟨st, p, some (fun _ => (0, 0)), k⟩ Fx Fy M
      = Boat.kinematics ⟨st, p, none, k⟩ Fx Fy M := by
  simp [Boat.kinematics]
  constructor
  · linear_combination ((0 - st.Vx) / p.mass) * hx
  · linear_combination ((0 - st.Vy) / p.mass) * hy

/-- C2 counterexample: a boat whose wind field returns (0,0) everywhere does
not match the wind-free boat: with body velocity Vx = 1 the apparent wind is
(-1, 0) and the sail exerts drag, so the dynamics outputs differ. -/
theorem c2_counterexample :
    Boat.dynamics
      ⟨⟨0, 0, 0, 1, 0, 0, 0, 0⟩, ⟨1, 1, (0, 0, 0), 1, 1, 1, 1, 2⟩,
        some (fun _ => (0, 0)), .differential⟩ (0, 0)
      ≠ Boat.dynamics
      ⟨⟨0, 0, 0, 1, 0, 0, 0, 0⟩, ⟨1, 1, (0, 0, 0), 1, 1, 1, 1, 2⟩,
        none, .differential⟩ (0, 0) := by
  intro h
  simp [Boat.dynamics, Boat.kinematics] at h
  norm_num at h

/-- C2 (amended): for parameters with nonzero mass, the zero-wind boat and
the wind-free boat agree in `dynamics` and `update_state` at every state,
control, adaptation-derivative list and `dt` if and only if both sail-force
coefficients `0.5·air_density·sail_area·sail_Cx` and
`0.5·air_density·sail_area·sail_Cy` vanish.  (Individual states can still
coincide with nonzero coefficients, e.g. at zero body velocity, but then
the equivalence fails at other states: the zero-wind boat feels
apparent-wind drag generated by its own body velocity.) -/
theorem c2_zero_wind_equivalence (p : BoatParameters) (hm : p.mass ≠ 0) :
    (∀ (k : BoatKind) (st : BoatState) (c : ℝ × ℝ) (ad : List ℝ) (dt : ℝ),
        Boat.dynamics ⟨st, p, some (fun _ => (0, 0)), k⟩ c
          = Boat.dynamics ⟨st, p, none, k⟩ c
        ∧ Boat.update_state ⟨st, p, some (fun _ => (0, 0)), k⟩ c ad dt
          = Boat.update_state ⟨st, p, none, k⟩ c ad dt)
      ↔ (0.5 * p.air_density * p.sail_area * p.sail_Cx = 0
         ∧ 0.5 * p.air_density * p.sail_area * p.sail_Cy = 0) := by
  constructor
  · intro h
    constructor
    · have hx := (h .differential ⟨0, 0, 0, 1, 0, 0, 0, 0⟩ (0, 0) [] 0).1
      simp [Boat.dynamics, Boat.kinematics] at hx
      obtain (((hx | hx) | hx) | hx) | hx := hx
      · exact absurd hx (by norm_num)
      · simp [hx]
      · simp [hx]
      · simp [hx]
      · exact absurd hx hm
    · have hy := (h .differential ⟨0, 0, 0, 0, 1, 0, 0, 0⟩ (0, 0) [] 0).1
      simp [Boat.dynamics, Boat.kinematics] at hy
      obtain (((hy | hy) | hy) | hy) | hy := hy
      · exact absurd hy (by norm_num)
      · simp [hy]
      · simp [hy]
      · simp [hy]
      · exact absurd hy hm
  · rintro ⟨hx, hy⟩ k st c ad dt
    have hdyn : Boat.dynamics ⟨st, p, some (fun _ => (0, 0)), k⟩ c
        = Boat.dynamics ⟨st, p, none, k⟩ c := by
      cases k with
      | base => rfl
      | differential =>
        simp only [Boat.dynamics]
        exact congrArg Except.ok (zero_wind_kinematics st p _ hx hy _ _ _)
      | steerable =>
        simp only [Boat.dynamics]
        exact congrArg Except.ok (zero_wind_kinematics st p _ hx hy _ _ _)
    exact ⟨hdyn, by simp only [Boat.update_state, hdyn]⟩

/-- C2 witness: at unit mass, density and drag coefficients with sail area
0, both sides of the equivalence hold. -/
theorem c2_witness :
    (∀ (k : BoatKind) (st : BoatState) (c : ℝ × ℝ) (ad : List ℝ) (dt : ℝ),
        Boat.dynamics ⟨st, ⟨1, 1, (0, 0, 0), 1, 1, 1, 1, 0⟩,
            some (fun _ => (0, 0)), k⟩ c
          = Boat.dynamics ⟨st, ⟨1, 1, (0, 0, 0), 1, 1, 1, 1, 0⟩, none, k⟩ c
        ∧ Boat.update_state ⟨st, ⟨1, 1, (0, 0, 0), 1, 1, 1, 1, 0⟩,
            some (fun _ => (0, 0)), k⟩ c ad dt
          = Boat.update_state ⟨st, ⟨1, 1, (0, 0, 0), 1, 1, 1, 1, 0⟩, none, k⟩ c ad dt)
      ↔ (0.5 * (1 : ℝ) * 0 * 1 = 0 ∧ 0.5 * (1 : ℝ) * 0 * 1 = 0) :=
  c2_zero_wind_equivalence ⟨1, 1, (0, 0, 0), 1, 1, 1, 1, 0⟩ (by norm_num)
